import Mathlib

/-!
# Verification of the `ecs_service` reconciliation module

Shallow embedding of `src/cloud/amazon/ecs_service.py`.  The module
reconciles an ECS service against the remote control plane: `main`
dispatches on `state ∈ {present, absent, deleting}`, using the
`EcsServiceManager` methods `describe_service`, `is_matching_service`,
`create_service`, `update_service` and `delete_service`.

The remote API is modelled as data supplied to the embedded functions
(the describe response, the status returned by each poll, the service
objects returned by create/update); the mutating calls issued are
collected in a list.  Python `None` becomes `Option`, and the dynamic
keyword-argument dicts built by `create_service` / `update_service`
become records of `Option` fields where `none` means "key omitted".
-/

namespace EcsService

/-- A load balancer entry as carried in `loadBalancers` lists
(`loadBalancerName`, `containerName`, `containerPort`). -/
structure LoadBalancer where
  loadBalancerName : String
  containerName : String
  containerPort : Int
deriving DecidableEq, Repr

/-- A remote service object as returned by the describe/create/update
calls.  `deployments` and `events` are presentation-only payloads the
module never inspects (it only deletes or stringifies them), so they
are kept opaque as `List String`. -/
structure RemoteService where
  serviceArn : String
  serviceName : String
  status : String
  taskDefinition : String
  desiredCount : Int
  loadBalancers : List LoadBalancer
  deployments : List String
  events : List String
deriving DecidableEq, Repr

/-- One entry of the `failures` list of a describe response
(fields `arn` and `reason`). -/
structure EcsFailure where
  arn : String
  reason : String
deriving DecidableEq, Repr

/-- The response of `ecs.describe_services`: a `failures` list and a
`services` list (source line 226). -/
structure DescribeResponse where
  failures : List EcsFailure
  services : List RemoteService
deriving DecidableEq, Repr

/-- `module.params` after `AnsibleModule` parsing (source lines 311-323):
required `state`/`name`, optional strings/list/int, `delay` and `repeat`
defaulting to 10. -/
structure Params where
  state : String
  name : String
  cluster : Option String
  task_definition : Option String
  load_balancers : Option (List LoadBalancer)
  desired_count : Option Int
  client_token : Option String
  role : Option String
  delay : Int
  repeatN : Int
deriving DecidableEq, Repr

/-! ## State Fetcher (`find_in_array`, `describe_service`, lines 213-238) -/

/-- Python `str.endswith` (the suffix test of line 215), on the
character sequences of the two strings. -/
def endswith (s suffix : String) : Bool :=
  suffix.data.isSuffixOf s.data

/-- `find_in_array(response['failures'], service_name, 'arn')`
(line 229): first failure whose `arn` ends with the service name. -/
def find_in_array_failures (arr : List EcsFailure) (service_name : String) :
    Option EcsFailure :=
  arr.find? (fun c => endswith c.arn service_name)

/-- `find_in_array(response['services'], service_name)` (line 235):
first service whose `serviceArn` ends with the service name. -/
def find_in_array_services (arr : List RemoteService) (service_name : String) :
    Option RemoteService :=
  arr.find? (fun c => endswith c.serviceArn service_name)

/-- Outcome of `describe_service`: `return None` (absence),
`return c` (found), `raise StandardError(msg)` (raised), or the
`TypeError` from subscripting `None` at line 230 when no failure entry
matches the service name. -/
inductive DescribeOutcome where
  | notFound
  | found (svc : RemoteService)
  | raised (msg : String)
  | typeError
deriving DecidableEq, Repr

/-- The message of the `StandardError` raised at line 238.  Note that
the `msg` local built at lines 227-230 (which held the failure reason)
is dead: it is never interpolated into this message. -/
def unknownProblemMsg (service_name : String) : String :=
  "Unknown problem describing service " ++ service_name ++ "."

/-- Lines 234-238 of `describe_service`: scan the `services` list; a
suffix-matching entry is returned, otherwise the generic
`StandardError` is raised. -/
def describe_tail (service_name : String) (response : DescribeResponse) :
    DescribeOutcome :=
  if response.services.length > 0 then
    match find_in_array_services response.services service_name with
    | some c => DescribeOutcome.found c
    | none => DescribeOutcome.raised (unknownProblemMsg service_name)
  else
    DescribeOutcome.raised (unknownProblemMsg service_name)

/-- `describe_service` (lines 219-238), as a function of the response
the remote API returns.  When `failures` is non-empty, the matching
failure `c` is looked up; line 230 (`... + c['reason']`) subscripts `c`
before the `if c` guard, so a missing match is a `TypeError`.  A
matching failure with reason `MISSING` yields `None`; any other reason
falls through to the `services` scan. -/
def describe_service (service_name : String) (response : DescribeResponse) :
    DescribeOutcome :=
  if response.failures.length > 0 then
    match find_in_array_failures response.failures service_name with
    | none => DescribeOutcome.typeError
    | some c =>
      if c.reason = "MISSING" then DescribeOutcome.notFound
      else describe_tail service_name response
  else
    describe_tail service_name response

/-! ## Diff/Classifier (`is_matching_service`, lines 240-250) -/

/-- `is_matching_service(expected, existing)` (lines 240-250).
`expected['task_definition'] != existing['taskDefinition']` compares an
optional value against the present one (`None` never equals a string);
`expected['load_balancers'] or []` and `expected['desired_count'] or 0`
are Python `or`-defaults: `None or [] == []`, `[] or [] == []`, and
`None or 0 == 0`, `0 or 0 == 0`, so on our `Option` model both equal
`getD` with the respective default. -/
def is_matching_service (expected : Params) (existing : RemoteService) : Bool :=
  if expected.task_definition ≠ some existing.taskDefinition then false
  else if expected.load_balancers.getD [] ≠ existing.loadBalancers then false
  else if expected.desired_count.getD 0 ≠ existing.desiredCount then false
  else true

/-- The three-way classification computed by the `matching`/`update`
flags of `main` (lines 343-350): an existing ACTIVE service is either
`matching` or `updateNeeded`; anything else (absent, or present with a
non-ACTIVE status) leads to the create branch. -/
inductive Classification where
  | matching
  | updateNeeded
  | createNeeded
deriving DecidableEq, Repr

/-- Lines 343-350 of `main`. -/
def classify (params : Params) : Option RemoteService → Classification
  | some existing =>
    if existing.status = "ACTIVE" then
      if is_matching_service params existing then Classification.matching
      else Classification.updateNeeded
    else Classification.createNeeded
  | none => Classification.createNeeded

/-! ## Mutator (`create_service`, `update_service`, `delete_service`,
lines 252-307).  Each function builds a keyword-argument dict by
starting from the required keys and adding an optional key only when
the corresponding argument is not `None`; a record of `Option` fields
(`none` = key omitted) models exactly that dict. -/

/-- The `ecs_args` dict passed to `ecs.update_service` (lines 273-283):
`service` always present, `cluster`/`taskDefinition`/`desiredCount`
present iff the argument is not `None`. -/
structure UpdatePayload where
  service : String
  cluster : Option String
  taskDefinition : Option String
  desiredCount : Option Int
deriving DecidableEq, Repr

/-- The `ecs_args` dict passed to `ecs.create_service` (lines 254-267):
`serviceName`/`taskDefinition`/`desiredCount` always present,
`cluster`/`loadBalancers`/`clientToken`/`role` present iff not `None`. -/
structure CreatePayload where
  serviceName : String
  taskDefinition : String
  desiredCount : Int
  cluster : Option String
  loadBalancers : Option (List LoadBalancer)
  clientToken : Option String
  role : Option String
deriving DecidableEq, Repr

/-- `update_service` (lines 271-284), as the payload it sends. -/
def update_service (service_name : String) (cluster_name : Option String)
    (task_definition : Option String) (desired_count : Option Int) :
    UpdatePayload :=
  { service := service_name
    cluster := cluster_name
    taskDefinition := task_definition
    desiredCount := desired_count }

/-- `create_service` (lines 252-269), as the payload it sends. -/
def create_service (service_name : String) (cluster_name : Option String)
    (task_definition : String) (load_balancers : Option (List LoadBalancer))
    (desired_count : Int) (client_token : Option String)
    (role : Option String) : CreatePayload :=
  { serviceName := service_name
    taskDefinition := task_definition
    desiredCount := desired_count
    cluster := cluster_name
    loadBalancers := load_balancers
    clientToken := client_token
    role := role }

/-- A mutating remote call issued during one reconciliation pass. -/
inductive Call where
  | create (payload : CreatePayload)
  | update (payload : UpdatePayload)
  | delete (service : String) (cluster : Option String)
deriving DecidableEq, Repr

/-! ## `main`, state == 'present' (lines 340-377) -/

/-- Result of the `state == 'present'` branch: the final `results`
dict (`changed`, optional `service`), the message of a `fail_json`
when one fired, and the mutating calls issued.  `jsonize` only
stringifies datetimes inside `deployments`/`events`, which our model
keeps opaque, so it is the identity here. -/
structure PresentResult where
  changed : Bool
  service : Option RemoteService
  failed : Option String
  calls : List Call
deriving DecidableEq, Repr

/-- `fail_json` message at line 363. -/
def missingCountMsg : String :=
  "To create a service, a desired_count must be specified"

/-- `fail_json` message at line 365. -/
def missingTaskDefMsg : String :=
  "To create a service, a task_definition must be specified"

/-- Lines 340-377 of `main`.  `existing` is the value returned by the
initial `describe_service` (absence = `none`); `updateResp` and
`createResp` are the service objects the remote API returns to an
update/create call.  The `matching`/`update` flags are folded into
`classify`.  In the create branch `desired_count` is checked before
`task_definition` (lines 362-365), and a `fail_json` aborts before
`results['changed'] = True` (line 377) is reached. -/
def main_present (params : Params) (check_mode : Bool)
    (existing : Option RemoteService)
    (updateResp createResp : RemoteService) : PresentResult :=
  match classify params existing with
  | Classification.matching =>
    { changed := false, service := existing, failed := none, calls := [] }
  | Classification.updateNeeded =>
    if check_mode then
      { changed := true, service := none, failed := none, calls := [] }
    else
      { changed := true
        service := some updateResp
        failed := none
        calls := [Call.update (update_service params.name params.cluster
          params.task_definition params.desired_count)] }
  | Classification.createNeeded =>
    if check_mode then
      { changed := true, service := none, failed := none, calls := [] }
    else
      match params.desired_count with
      | none =>
        { changed := false, service := none
          failed := some missingCountMsg, calls := [] }
      | some dc =>
        match params.task_definition with
        | none =>
          { changed := false, service := none
            failed := some missingTaskDefMsg, calls := [] }
        | some td =>
          { changed := true
            service := some createResp
            failed := none
            calls := [Call.create (create_service params.name params.cluster
              td params.load_balancers dc params.client_token params.role)] }

/-! ## `main`, state == 'absent' (lines 379-399) -/

/-- The service snapshot placed into `results['ansible_facts']` after
`del existing['deployments']` and `del existing['events']`
(lines 385-387): all fields of the service except those two. -/
structure ServiceFacts where
  serviceArn : String
  serviceName : String
  status : String
  taskDefinition : String
  desiredCount : Int
  loadBalancers : List LoadBalancer
deriving DecidableEq, Repr

/-- Dropping the `deployments`/`events` sub-collections. -/
def factsOf (s : RemoteService) : ServiceFacts :=
  { serviceArn := s.serviceArn
    serviceName := s.serviceName
    status := s.status
    taskDefinition := s.taskDefinition
    desiredCount := s.desiredCount
    loadBalancers := s.loadBalancers }

/-- Result of the `state == 'absent'` branch. -/
structure AbsentResult where
  changed : Bool
  facts : Option ServiceFacts
  failed : Option String
  calls : List Call
deriving DecidableEq, Repr

/-- Lines 379-399 of `main`.  `deleteOk` says whether the remote
accepts the delete call; on a `ClientError`, `fail_json(msg=e.message)`
fires (`deleteErrMsg`).  The facts snapshot is installed before the
INACTIVE test, so it is returned in every existing-service case. -/
def main_absent (params : Params) (check_mode : Bool)
    (existing : Option RemoteService)
    (deleteOk : Bool) (deleteErrMsg : String) : AbsentResult :=
  match existing with
  | none =>
    { changed := false, facts := none, failed := none, calls := [] }
  | some ex =>
    if ex.status = "INACTIVE" then
      { changed := false, facts := some (factsOf ex), failed := none
        calls := [] }
    else
      if check_mode then
        { changed := true, facts := some (factsOf ex), failed := none
          calls := [] }
      else
        if deleteOk then
          { changed := true, facts := some (factsOf ex), failed := none
            calls := [Call.delete params.name params.cluster] }
        else
          { changed := false, facts := some (factsOf ex)
            failed := some deleteErrMsg
            calls := [Call.delete params.name params.cluster] }

/-! ## `main`, state == 'deleting' (lines 401-419) -/

/-- One observable action of the deleting workflow, in order of
occurrence: a `time.sleep(delay)` or the (idx+1)-th
`describe_service` call of the poll loop. -/
inductive Ev where
  | sleep (seconds : Int)
  | describe (idx : Nat)
deriving DecidableEq, Repr

/-- How the deleting branch terminates: `exit_json` with the final
`changed` flag, a `fail_json` with its message, or the `NameError`
raised at line 417 when the loop variable `i` was never bound. -/
inductive DelResult where
  | exitChanged (changed : Bool)
  | failJson (msg : String)
  | nameError
deriving DecidableEq, Repr

/-- Terminal outcome plus the ordered sleep/describe events. -/
structure DeletingTrace where
  result : DelResult
  events : List Ev
deriving DecidableEq, Repr

/-- CPython `is` on two `int` values, as at line 417
(`if i is repeat-1`): `repeat-1` is computed freshly, so the two
references denote the same object iff the values are equal and lie in
CPython's cached small-int range [-5, 256]. -/
def pyIs (a b : Int) : Bool :=
  a = b && -5 ≤ a && a ≤ 256

/-- The `fail_json` message at line 418. -/
def timedOutMsg (rep delay : Int) : String :=
  "Service still not deleted after " ++ toString rep ++ " tries of "
    ++ toString delay ++ " seconds each."

/-- The `for i in range(repeat)` body (lines 410-416), run from index
`i` with `n` iterations remaining.  `poll idx` is the `status` of the
service returned by the (idx+1)-th in-loop `describe_service` call.
Returns the last value bound to `i` (`none` when no iteration ran),
the `changed` flag, and the events in order: each iteration describes,
then either breaks on INACTIVE or sleeps `delay` seconds. -/
def runLoopEv (poll : Nat → String) (delay : Int) :
    Nat → Nat → Option Nat × Bool × List Ev
  | _, 0 => (none, false, [])
  | i, n + 1 =>
    if poll i = "INACTIVE" then
      (some i, true, [Ev.describe i])
    else
      (some ((runLoopEv poll delay (i + 1) n).1.getD i),
        (runLoopEv poll delay (i + 1) n).2.1,
        Ev.describe i :: Ev.sleep delay :: (runLoopEv poll delay (i + 1) n).2.2)

/-- Lines 417-419: the post-loop exhaustion test.  An unbound `i`
(empty `range`) raises `NameError`; otherwise `i is repeat-1` decides
between the timeout `fail_json` and `exit_json(**results)`. -/
def postLoopCheck (delay rep : Int) (lastI : Option Nat) (changed : Bool) :
    DelResult :=
  match lastI with
  | none => DelResult.nameError
  | some i =>
    if pyIs (Int.ofNat i) (rep - 1) then
      DelResult.failJson (timedOutMsg rep delay)
    else
      DelResult.exitChanged changed

/-- Lines 407-419 on an existing service: the unconditional
`time.sleep(delay)` at line 409, then the poll loop over
`range(repeat)` (`Int.toNat` is `range`'s clamping of a non-positive
bound to the empty range), then the post-loop check. -/
def deleting_flow (poll : Nat → String) (delay rep : Int) : DeletingTrace :=
  { result := postLoopCheck delay rep
      (runLoopEv poll delay 0 rep.toNat).1
      (runLoopEv poll delay 0 rep.toNat).2.1
    events := Ev.sleep delay :: (runLoopEv poll delay 0 rep.toNat).2.2 }

/-- Lines 401-419 of `main`: a missing service is a fatal
precondition (`fail_json` at line 403), otherwise the polling
workflow runs. -/
def main_deleting (existing : Option RemoteService) (name : String)
    (poll : Nat → String) (delay rep : Int) : DeletingTrace :=
  match existing with
  | none =>
    { result := DelResult.failJson ("Service '" ++ name ++ " not found.")
      events := [] }
  | some _ => deleting_flow poll delay rep

/-- Number of describe calls in an event trace. -/
def nDescribes (evs : List Ev) : Nat :=
  evs.countP (fun e => match e with | Ev.describe _ => true | _ => false)

/-- Number of sleeps in an event trace. -/
def nSleeps (evs : List Ev) : Nat :=
  evs.countP (fun e => match e with | Ev.sleep _ => true | _ => false)

/-! ## Concrete sample data used by witnesses and counterexamples -/

/-- A sample remote service in status ACTIVE. -/
def sampleSvc : RemoteService :=
  { serviceArn := "arn:aws:ecs:us-east-1:123456789012:service/console-test-service"
    serviceName := "console-test-service"
    status := "ACTIVE"
    taskDefinition := "td:1"
    desiredCount := 2
    loadBalancers := []
    deployments := ["d1"]
    events := ["e1"] }

/-- A poll oracle whose status is never INACTIVE. -/
def pollAlwaysActive : Nat → String := fun _ => "ACTIVE"

/-- A poll oracle that reports INACTIVE exactly on the 10th describe
call (index 9). -/
def pollInactiveAtTenth : Nat → String :=
  fun k => if k = 9 then "INACTIVE" else "ACTIVE"

/-- A poll oracle that reports INACTIVE from the 3rd describe call on
(indices 0 and 1 still ACTIVE). -/
def pollInactiveAtThird : Nat → String :=
  fun k => if k ≥ 2 then "INACTIVE" else "ACTIVE"

/-! ## Helper lemmas about the poll loop -/

/-- Counting describes past a leading describe event. -/
theorem nDescribes_cons_describe (i : Nat) (evs : List Ev) :
    nDescribes (Ev.describe i :: evs) = nDescribes evs + 1 := by
  simp [nDescribes, List.countP_cons]

/-- Counting describes past a leading sleep event. -/
theorem nDescribes_cons_sleep (d : Int) (evs : List Ev) :
    nDescribes (Ev.sleep d :: evs) = nDescribes evs := by
  simp [nDescribes, List.countP_cons]

/-- Counting sleeps past a leading describe event. -/
theorem nSleeps_cons_describe (i : Nat) (evs : List Ev) :
    nSleeps (Ev.describe i :: evs) = nSleeps evs := by
  simp [nSleeps, List.countP_cons]

/-- Counting sleeps past a leading sleep event. -/
theorem nSleeps_cons_sleep (d : Int) (evs : List Ev) :
    nSleeps (Ev.sleep d :: evs) = nSleeps evs + 1 := by
  simp [nSleeps, List.countP_cons]

/-- When the loop variable was bound, the post-loop check reports
either the timeout failure or the `exit_json` outcome, never the
`NameError`. -/
theorem postLoopCheck_some_ne_nameError (delay rep : Int) (i : Nat)
    (ch : Bool) :
    postLoopCheck delay rep (some i) ch ≠ DelResult.nameError := by
  show (if pyIs (Int.ofNat i) (rep - 1) then
        DelResult.failJson (timedOutMsg rep delay)
      else DelResult.exitChanged ch)
    ≠ DelResult.nameError
  split <;> simp

/-- After at least one loop iteration the loop variable is bound. -/
theorem runLoopEv_fst_ne_none (poll : Nat → String) (delay : Int)
    (i n : Nat) : (runLoopEv poll delay i (n + 1)).1 ≠ none := by
  simp only [runLoopEv]
  split <;> simp

/-- If the first INACTIVE status among the polls starting at index `i`
appears at offset `f`, and the loop has more than `f` iterations left,
then the loop breaks at index `i + f` with `changed = true`, after
`f + 1` describe calls and `f` in-loop sleeps. -/
theorem runLoopEv_hit (poll : Nat → String) (delay : Int) :
    ∀ (f i n : Nat), f < n → poll (i + f) = "INACTIVE" →
      (∀ j, j < f → poll (i + j) ≠ "INACTIVE") →
      (runLoopEv poll delay i n).1 = some (i + f) ∧
      (runLoopEv poll delay i n).2.1 = true ∧
      nDescribes (runLoopEv poll delay i n).2.2 = f + 1 ∧
      nSleeps (runLoopEv poll delay i n).2.2 = f := by
  intro f
  induction f with
  | zero =>
    intro i n hfn hhit _
    obtain ⟨m, rfl⟩ : ∃ m, n = m + 1 := ⟨n - 1, by omega⟩
    have hi : poll i = "INACTIVE" := by simpa using hhit
    simp only [runLoopEv, if_pos hi]
    simp [nDescribes, nSleeps]
  | succ f ih =>
    intro i n hfn hhit hmiss
    obtain ⟨m, rfl⟩ : ∃ m, n = m + 1 := ⟨n - 1, by omega⟩
    have h0 : ¬(poll i = "INACTIVE") := by
      simpa using hmiss 0 (by omega)
    have hhit' : poll (i + 1 + f) = "INACTIVE" := by
      rw [show i + 1 + f = i + (f + 1) by omega]; exact hhit
    have hmiss' : ∀ j, j < f → poll (i + 1 + j) ≠ "INACTIVE" := by
      intro j hj
      rw [show i + 1 + j = i + (j + 1) by omega]
      exact hmiss (j + 1) (by omega)
    obtain ⟨h1, h2, h3, h4⟩ := ih (i + 1) m (by omega) hhit' hmiss'
    simp only [runLoopEv, if_neg h0]
    refine ⟨?_, h2, ?_, ?_⟩
    · rw [h1]
      simp only [Option.getD_some]
      rw [show i + 1 + f = i + (f + 1) by omega]
    · rw [nDescribes_cons_describe, nDescribes_cons_sleep, h3]
    · rw [nSleeps_cons_describe, nSleeps_cons_sleep, h4]

/-- Parameters that match `sampleSvc` exactly. -/
def sampleParamsMatch : Params :=
  { state := "present", name := "console-test-service", cluster := none
    task_definition := some "td:1", load_balancers := none
    desired_count := some 2, client_token := none, role := none
    delay := 10, repeatN := 10 }

/-- Parameters that provide `task_definition` equal to `sampleSvc`'s
but a differing `desired_count`. -/
def sampleParamsUpd : Params :=
  { sampleParamsMatch with desired_count := some 3 }

/-- Parameters with `desired_count` unset. -/
def sampleParamsNoCount : Params :=
  { sampleParamsMatch with desired_count := none }

/-! ## Claim theorems -/

/-- C4: `is_matching_service` judges a desired spec and an existing
service matching iff the (optional) desired task definition equals the
existing one, the desired load balancer list (empty when unset) equals
the existing one under structural list/record equality, and the
desired count (0 when unset) equals the existing one. -/
theorem is_matching_service_iff (params : Params) (ex : RemoteService) :
    is_matching_service params ex = true ↔
      (params.task_definition = some ex.taskDefinition ∧
        params.load_balancers.getD [] = ex.loadBalancers ∧
        params.desired_count.getD 0 = ex.desiredCount) := by
  unfold is_matching_service
  split_ifs with h1 h2 h3 <;> simp_all

/-- C5: a desired spec whose task definition, load balancers and
desired count match an existing ACTIVE service makes the
`state == 'present'` reconciliation report `changed = false` and issue
no mutating call, in any check mode. -/
theorem matching_service_no_mutation (params : Params) (check_mode : Bool)
    (ex updateResp createResp : RemoteService)
    (hact : ex.status = "ACTIVE")
    (hm : is_matching_service params ex = true) :
    main_present params check_mode (some ex) updateResp createResp
      = { changed := false, service := some ex, failed := none, calls := [] } := by
  simp [main_present, classify, hact, hm]

/-- C5 witness. -/
theorem matching_service_no_mutation_w :
    main_present sampleParamsMatch false (some sampleSvc) sampleSvc sampleSvc
      = { changed := false, service := some sampleSvc, failed := none
          calls := [] } :=
  matching_service_no_mutation sampleParamsMatch false sampleSvc sampleSvc
    sampleSvc rfl (by decide)

/-- C3 (amended): on an existing ACTIVE service that does not match
the desired spec, the non-check `state == 'present'` reconciliation
issues exactly one update call, whose payload carries exactly the
*provided* optional fields — `taskDefinition` whenever
`task_definition` is set and `desiredCount` whenever `desired_count`
is set, including a provided field that already matches the remote
value; only unset fields are omitted. -/
theorem update_call_payload (params : Params)
    (ex updateResp createResp : RemoteService)
    (hact : ex.status = "ACTIVE")
    (hnm : is_matching_service params ex = false) :
    (main_present params false (some ex) updateResp createResp).calls
      = [Call.update
          { service := params.name, cluster := params.cluster
            taskDefinition := params.task_definition
            desiredCount := params.desired_count }] ∧
    (main_present params false (some ex) updateResp createResp).changed
      = true := by
  simp [main_present, classify, hact, hnm, update_service]

/-- C3 witness. -/
theorem update_call_payload_w :
    (main_present sampleParamsUpd false (some sampleSvc) sampleSvc
        sampleSvc).calls
      = [Call.update
          { service := sampleParamsUpd.name, cluster := sampleParamsUpd.cluster
            taskDefinition := sampleParamsUpd.task_definition
            desiredCount := sampleParamsUpd.desired_count }] ∧
    (main_present sampleParamsUpd false (some sampleSvc) sampleSvc
        sampleSvc).changed = true :=
  update_call_payload sampleParamsUpd sampleSvc sampleSvc sampleSvc rfl
    (by decide)

/-- C3 counterexample: the desired spec provides `task_definition`
equal to the remote value (`td:1`) and differs from the existing
ACTIVE service only in `desired_count` (3 vs 2), yet the single update
call's payload still carries `taskDefinition = some "td:1"` — not only
the differing field. -/
theorem update_payload_not_minimal_cex :
    sampleParamsUpd.task_definition = some sampleSvc.taskDefinition ∧
    sampleParamsUpd.desired_count.getD 0 ≠ sampleSvc.desiredCount ∧
    sampleParamsUpd.load_balancers.getD [] = sampleSvc.loadBalancers ∧
    sampleSvc.status = "ACTIVE" ∧
    (main_present sampleParamsUpd false (some sampleSvc) sampleSvc
        sampleSvc).calls
      = [Call.update
          { service := "console-test-service", cluster := none
            taskDefinition := some "td:1", desiredCount := some 3 }] := by
  decide

/-- C6: whenever the classification is CreateNeeded (service absent or
not ACTIVE) and `task_definition` or `desired_count` is unset, the
non-check reconciliation fails with the corresponding
missing-required-field message and issues no remote mutating call —
the create operation is never reached. -/
theorem create_missing_required_field (params : Params)
    (existing : Option RemoteService) (updateResp createResp : RemoteService)
    (hc : classify params existing = Classification.createNeeded)
    (hmiss : params.task_definition = none ∨ params.desired_count = none) :
    ((main_present params false existing updateResp createResp).failed
        = some missingCountMsg ∨
      (main_present params false existing updateResp createResp).failed
        = some missingTaskDefMsg) ∧
    (main_present params false existing updateResp createResp).calls = [] ∧
    (main_present params false existing updateResp createResp).changed
      = false := by
  rcases hdc : params.desired_count with _ | dc
  · simp [main_present, hc, hdc]
  · rcases htd : params.task_definition with _ | td
    · simp [main_present, hc, hdc, htd]
    · rcases hmiss with h | h
      · rw [htd] at h; exact absurd h (by simp)
      · rw [hdc] at h; exact absurd h (by simp)

/-- C6 witness. -/
theorem create_missing_required_field_w :
    ((main_present sampleParamsNoCount false none sampleSvc sampleSvc).failed
        = some missingCountMsg ∨
      (main_present sampleParamsNoCount false none sampleSvc sampleSvc).failed
        = some missingTaskDefMsg) ∧
    (main_present sampleParamsNoCount false none sampleSvc sampleSvc).calls
      = [] ∧
    (main_present sampleParamsNoCount false none sampleSvc
        sampleSvc).changed = false :=
  create_missing_required_field sampleParamsNoCount none sampleSvc sampleSvc
    rfl (Or.inr rfl)

/-- C7: in check mode, a non-Matching classification (UpdateNeeded or
CreateNeeded) makes the `state == 'present'` reconciliation report
`changed = true` while issuing zero mutating calls. -/
theorem check_mode_no_mutation (params : Params)
    (existing : Option RemoteService) (updateResp createResp : RemoteService)
    (h : classify params existing ≠ Classification.matching) :
    main_present params true existing updateResp createResp
      = { changed := true, service := none, failed := none, calls := [] } := by
  cases hc : classify params existing with
  | matching => exact absurd hc h
  | updateNeeded => simp [main_present, hc]
  | createNeeded => simp [main_present, hc]

/-- C7 witness. -/
theorem check_mode_no_mutation_w :
    main_present sampleParamsUpd true (some sampleSvc) sampleSvc sampleSvc
      = { changed := true, service := none, failed := none, calls := [] } :=
  check_mode_no_mutation sampleParamsUpd (some sampleSvc) sampleSvc sampleSvc
    (by decide)

/-- `sampleSvc` after remote-side deletion completed. -/
def sampleSvcInactive : RemoteService := { sampleSvc with status := "INACTIVE" }

/-- C10: `state == 'absent'` on an existing INACTIVE service reports
`changed = false`, issues no delete call, and still returns the
service snapshot stripped of `deployments`/`events` in
`ansible_facts`. -/
theorem absent_inactive_no_delete (params : Params) (check_mode : Bool)
    (ex : RemoteService) (deleteOk : Bool) (deleteErrMsg : String)
    (hst : ex.status = "INACTIVE") :
    main_absent params check_mode (some ex) deleteOk deleteErrMsg
      = { changed := false, facts := some (factsOf ex), failed := none
          calls := [] } := by
  simp [main_absent, hst]

/-- C10 witness. -/
theorem absent_inactive_no_delete_w :
    main_absent sampleParamsMatch false (some sampleSvcInactive) true "err"
      = { changed := false, facts := some (factsOf sampleSvcInactive)
          failed := none, calls := [] } :=
  absent_inactive_no_delete sampleParamsMatch false sampleSvcInactive true
    "err" rfl

/-- A describe failure entry for the sample service with a
non-MISSING reason. -/
def sampleFailOther : EcsFailure :=
  { arn := "arn:aws:ecs:us-east-1:123456789012:service/console-test-service"
    reason := "OTHER" }

/-- The same failure entry with a different non-MISSING reason. -/
def sampleFailOther2 : EcsFailure :=
  { sampleFailOther with reason := "ANOTHER-REASON" }

/-- A describe failure entry for the sample service with reason
MISSING. -/
def sampleFailMissing : EcsFailure :=
  { sampleFailOther with reason := "MISSING" }

/-- A describe response reporting the sample service MISSING. -/
def respMissing : DescribeResponse :=
  { failures := [sampleFailMissing], services := [] }

/-- C2 (amended): when a describe response carries a failure entry
matching the service name, reason MISSING is classified as absence
(`NotFound`); any other reason falls through to the results list — if
no matching service is found there, a *generic* error is raised whose
message names the service but does not include the failure reason, and
if a matching service is present it is returned as found. -/
theorem describe_service_classification (name : String)
    (resp : DescribeResponse) (c : EcsFailure)
    (hfind : find_in_array_failures resp.failures name = some c) :
    (c.reason = "MISSING" →
      describe_service name resp = DescribeOutcome.notFound) ∧
    (c.reason ≠ "MISSING" →
      find_in_array_services resp.services name = none →
      describe_service name resp
        = DescribeOutcome.raised (unknownProblemMsg name)) ∧
    (∀ s, c.reason ≠ "MISSING" →
      find_in_array_services resp.services name = some s →
      describe_service name resp = DescribeOutcome.found s) := by
  have hne : resp.failures.length > 0 := by
    cases hfl : resp.failures with
    | nil => rw [hfl] at hfind; simp [find_in_array_failures] at hfind
    | cons a l => simp [hfl]
  refine ⟨?_, ?_, ?_⟩
  · intro hmiss
    simp [describe_service, hne, hfind, hmiss]
  · intro hnm hnone
    have htail : describe_tail name resp
        = DescribeOutcome.raised (unknownProblemMsg name) := by
      unfold describe_tail
      split
      · rw [hnone]
      · rfl
    simp [describe_service, hne, hfind, hnm, htail]
  · intro s hnm hsome
    have hlen : resp.services.length > 0 := by
      cases hsl : resp.services with
      | nil => rw [hsl] at hsome; simp [find_in_array_services] at hsome
      | cons a l => simp [hsl]
    have htail : describe_tail name resp = DescribeOutcome.found s := by
      simp [describe_tail, hlen, hsome]
    simp [describe_service, hne, hfind, hnm, htail]

set_option maxRecDepth 8000 in
/-- C2 witness. -/
theorem describe_service_classification_w :
    describe_service "console-test-service" respMissing
      = DescribeOutcome.notFound :=
  (describe_service_classification "console-test-service" respMissing
    sampleFailMissing (by decide)).1 rfl

set_option maxRecDepth 8000 in
/-- C2 counterexample: a non-MISSING failure is surfaced as the fixed
generic message — two responses with different failure reasons raise
the *same* error text, so the reason is not passed through verbatim —
and a non-MISSING failure accompanied by a matching entry in the
services list is returned as a successfully found service, not as an
error. -/
theorem describe_failure_reason_cex :
    sampleFailOther.reason ≠ sampleFailOther2.reason ∧
    describe_service "console-test-service"
        { failures := [sampleFailOther], services := [] }
      = DescribeOutcome.raised
          "Unknown problem describing service console-test-service." ∧
    describe_service "console-test-service"
        { failures := [sampleFailOther2], services := [] }
      = DescribeOutcome.raised
          "Unknown problem describing service console-test-service." ∧
    describe_service "console-test-service"
        { failures := [sampleFailOther], services := [sampleSvc] }
      = DescribeOutcome.found sampleSvc := by
  decide

/-- C1: in deleting-and-wait mode with `delay = 5`, `repeat = 10`, a
service that never reaches INACTIVE makes the run fail with the
timeout message (naming the 10 attempts of 5 seconds) after exactly 10
describe calls; but the same timeout failure also fires when the
service reaches INACTIVE exactly on the 10th poll (`i = repeat-1`
holds after the `break`), so the timeout is *not* reported only in the
exhaustion case — the `if i is repeat-1` post-loop test (line 417)
cannot tell a last-iteration `break` from exhaustion. -/
theorem deleting_timeout_misfires_on_last_poll :
    (main_deleting (some sampleSvc) "console-test-service" pollAlwaysActive
        5 10).result
      = DelResult.failJson
          "Service still not deleted after 10 tries of 5 seconds each." ∧
    nDescribes (main_deleting (some sampleSvc) "console-test-service"
        pollAlwaysActive 5 10).events = 10 ∧
    pollInactiveAtTenth 9 = "INACTIVE" ∧
    (main_deleting (some sampleSvc) "console-test-service"
        pollInactiveAtTenth 5 10).result
      = DelResult.failJson
          "Service still not deleted after 10 tries of 5 seconds each." := by
  decide

/-- C8: in deleting-and-wait mode the first sleep happens
unconditionally before the first re-fetch, and a service whose status
first reads INACTIVE on the k-th poll, with 1 ≤ k < repeat, makes the
run exit successfully with `changed = true` after exactly k describe
calls and exactly k sleeps of `delay` seconds. -/
theorem deleting_succeeds_at_kth_poll (s : RemoteService) (nm : String)
    (poll : Nat → String) (delay rep : Int) (k : Nat)
    (hk1 : 1 ≤ k) (hkr : (k : Int) < rep)
    (hhit : poll (k - 1) = "INACTIVE")
    (hmiss : ∀ j, j < k - 1 → poll j ≠ "INACTIVE") :
    (main_deleting (some s) nm poll delay rep).result
      = DelResult.exitChanged true ∧
    nDescribes (main_deleting (some s) nm poll delay rep).events = k ∧
    nSleeps (main_deleting (some s) nm poll delay rep).events = k ∧
    (main_deleting (some s) nm poll delay rep).events.head?
      = some (Ev.sleep delay) := by
  obtain ⟨f, rfl⟩ : ∃ f, k = f + 1 := ⟨k - 1, by omega⟩
  have hfn : f < rep.toNat := by omega
  have hhit' : poll (0 + f) = "INACTIVE" := by simpa using hhit
  have hmiss' : ∀ j, j < f → poll (0 + j) ≠ "INACTIVE" := by
    intro j hj
    simpa using hmiss j (by omega)
  obtain ⟨h1, h2, h3, h4⟩ := runLoopEv_hit poll delay f 0 rep.toNat hfn
    hhit' hmiss'
  have hne : (f : Int) ≠ rep - 1 := by
    have : ((f : Int) + 1) < rep := by exact_mod_cast hkr
    omega
  have hpy : pyIs ((f : Int)) (rep - 1) = false := by
    simp [pyIs, hne]
  refine ⟨?_, ?_, ?_, rfl⟩
  · show postLoopCheck delay rep (runLoopEv poll delay 0 rep.toNat).1
        (runLoopEv poll delay 0 rep.toNat).2.1
      = DelResult.exitChanged true
    rw [h1, h2]
    simp [postLoopCheck, hpy]
  · show nDescribes
        (Ev.sleep delay :: (runLoopEv poll delay 0 rep.toNat).2.2) = f + 1
    rw [nDescribes_cons_sleep, h3]
  · show nSleeps
        (Ev.sleep delay :: (runLoopEv poll delay 0 rep.toNat).2.2) = f + 1
    rw [nSleeps_cons_sleep, h4]

/-- C8 witness: k = 3, delay = 5, repeat = 10. -/
theorem deleting_succeeds_at_kth_poll_w :
    (main_deleting (some sampleSvc) "console-test-service"
        pollInactiveAtThird 5 10).result = DelResult.exitChanged true ∧
    nDescribes (main_deleting (some sampleSvc) "console-test-service"
        pollInactiveAtThird 5 10).events = 3 ∧
    nSleeps (main_deleting (some sampleSvc) "console-test-service"
        pollInactiveAtThird 5 10).events = 3 ∧
    (main_deleting (some sampleSvc) "console-test-service"
        pollInactiveAtThird 5 10).events.head? = some (Ev.sleep 5) :=
  deleting_succeeds_at_kth_poll sampleSvc "console-test-service"
    pollInactiveAtThird 5 10 3 (by decide) (by decide) (by decide)
    (by decide)

/-- C9: deleting-and-wait on an existing service with `repeat ≤ 0`
runs no loop iteration and then aborts with the `NameError` from the
never-bound loop variable at line 417 (zero describe calls, neither a
timeout report nor a success); with `repeat ≥ 1` the post-loop test
always reads a bound variable, so the `NameError` abort cannot
occur. -/
theorem deleting_name_error_iff_nonpositive_repeat (s : RemoteService)
    (nm : String) (poll : Nat → String) (delay rep : Int) :
    (rep ≤ 0 →
      (main_deleting (some s) nm poll delay rep).result
        = DelResult.nameError ∧
      nDescribes (main_deleting (some s) nm poll delay rep).events = 0) ∧
    (1 ≤ rep →
      (main_deleting (some s) nm poll delay rep).result
        ≠ DelResult.nameError) := by
  constructor
  · intro hrep
    have h0 : rep.toNat = 0 := by omega
    constructor
    · show postLoopCheck delay rep (runLoopEv poll delay 0 rep.toNat).1
          (runLoopEv poll delay 0 rep.toNat).2.1 = DelResult.nameError
      rw [h0]
      rfl
    · show nDescribes
          (Ev.sleep delay :: (runLoopEv poll delay 0 rep.toNat).2.2) = 0
      rw [h0]
      rfl
  · intro hrep
    obtain ⟨m, hm⟩ : ∃ m, rep.toNat = m + 1 := ⟨rep.toNat - 1, by omega⟩
    show postLoopCheck delay rep (runLoopEv poll delay 0 rep.toNat).1
        (runLoopEv poll delay 0 rep.toNat).2.1 ≠ DelResult.nameError
    rw [hm]
    rcases hfst : (runLoopEv poll delay 0 (m + 1)).1 with _ | i
    · exact absurd hfst (runLoopEv_fst_ne_none poll delay 0 m)
    · exact postLoopCheck_some_ne_nameError delay rep i _

/-- C9 witness: repeat = 0. -/
theorem deleting_name_error_iff_nonpositive_repeat_w :
    (main_deleting (some sampleSvc) "console-test-service" pollAlwaysActive
        5 0).result = DelResult.nameError :=
  ((deleting_name_error_iff_nonpositive_repeat sampleSvc
    "console-test-service" pollAlwaysActive 5 0).1 (by decide)).1

end EcsService
